import Mathlib

/-
Verification of the TeenFin mockup repository.

The repository contains two TSX source files with overlapping components:
- src/src/App.tsx: the full presentation. It defines TargetCursor (a custom
  cursor effect with a spin timeline and mousedown/mouseup scale feedback),
  a PhoneMockup whose HomeScreen navigates to shop/save/invest and whose
  Shop/Save/Invest screens each offer only a back-to-home button, and an App
  holding the current screen in useState initialized to home.
- an unnamed source file (src/unnamed/part_000): a reduced variant. Its
  TargetCursor subscribes only to mousemove (no press/release handlers), and
  its App renders all four navigation buttons (Home/Shop/Save/Invest) on
  every screen.

The model below is a shallow embedding of both variants: the navigation state
machine, the rendered-views branching, and the TargetCursor mount effect
(cursor-style capture and restore, spin-timeline creation, event
subscriptions, press/release tweens) as pure functions.
-/

namespace TeenFin

/-- The two source files of the repository that define App/TargetCursor
components: appTsx is src/src/App.tsx, unnamedPart0 is the reduced variant
in the unnamed source file. -/
inductive SourceFile
  | appTsx
  | unnamedPart0
deriving DecidableEq, Repr

/-- ScreenName (App.tsx line 157): the closed enumeration of mockup screens. -/
inductive ScreenName
  | home
  | shop
  | save
  | invest
deriving DecidableEq, Repr

open ScreenName

/-- The React state setter setScreen from App (App.tsx line 172): replaces
the current screen with the target unconditionally. -/
def setScreen (target : ScreenName) (_screen : ScreenName) : ScreenName :=
  target

/-- One navigation step: the current screen, then one requested target. -/
def navStep (screen target : ScreenName) : ScreenName :=
  setScreen target screen

/-- Running a finite sequence of navigation requests from a starting screen. -/
def runNav (s0 : ScreenName) (reqs : List ScreenName) : ScreenName :=
  reqs.foldl navStep s0

/-- Initial value of the screen state (App.tsx line 172: useState initialized
to home; same in the unnamed file line 43). -/
def initialScreen : ScreenName :=
  home

/-- Remount semantics of useState: the screen state is re-initialized to home
on every mount, regardless of the value held at the previous teardown. -/
def mountScreen (_prevAtTeardown : Option ScreenName) : ScreenName :=
  home

/-- Targets of the navigation controls rendered while on a given screen.
For appTsx (PhoneMockup, App.tsx lines 159-169): HomeScreen renders the
Shop/Save/Invest buttons (lines 99-101) wired to onNav = setScreen, and each
of ShopScreen/SaveScreen/InvestScreen renders only a back button wired to
setScreen home (lines 126, 137, 152).
For unnamedPart0 (App, lines 52-61): the four buttons Home/Shop/Save/Invest
are rendered below the screen view unconditionally, on every screen. -/
def navControls : SourceFile → ScreenName → List ScreenName
  | .appTsx, .home => [shop, save, invest]
  | .appTsx, .shop => [home]
  | .appTsx, .save => [home]
  | .appTsx, .invest => [home]
  | .unnamedPart0, _ => [home, shop, save, invest]

/-- The four mutually exclusive render conditions of PhoneMockup (App.tsx
lines 163-166, same shape in the unnamed file lines 52-55): the view for a
screen v is emitted exactly when the current screen equals v. The result
lists the screen views present in the rendered output. -/
def renderedViews (screen : ScreenName) : List ScreenName :=
  (if screen = home then [home] else [])
    ++ (if screen = shop then [shop] else [])
    ++ (if screen = save then [save] else [])
    ++ (if screen = invest then [invest] else [])

/-- Easing modes used by the cursor controller: Ease.linearNone is the gsap
ease none string (linear, no easing), Ease.power3Out the decelerating curve
used for position tweens. -/
inductive Ease
  | linearNone
  | power3Out
deriving DecidableEq, Repr

/-- Configuration of the spin timeline created at activation (App.tsx line
35; unnamed file line 21): gsap.timeline with repeat -1, tweening the
rotation by +=360 over spinDuration with ease none. -/
structure SpinTimeline where
  repeats : Int
  rotationDelta : ℚ
  duration : ℚ
  ease : Ease
deriving DecidableEq, Repr

/-- The spin timeline both TargetCursor variants create: repeat -1
(indefinite), rotation advance 360 per cycle, period spinDuration, linear
timing. -/
def mainSpinTl (spinDuration : ℚ) : SpinTimeline :=
  { repeats := -1, rotationDelta := 360, duration := spinDuration,
    ease := Ease.linearNone }

/-- A gsap.to scale tween as issued by the press/release handlers: the
element it targets, the target scale, and the tween duration. -/
structure ScaleTween where
  target : String
  scale : ℚ
  duration : ℚ
deriving DecidableEq, Repr

/-- Window event types each TargetCursor variant subscribes to when
activation completes: App.tsx lines 38, 50-51 register mousemove, mousedown
and mouseup; the unnamed file line 23 registers only mousemove. -/
def listenersOf : SourceFile → List String
  | .appTsx => [("mousemove"), ("mousedown"), ("mouseup")]
  | .unnamedPart0 => [("mousemove")]

/-- Observable result of running the TargetCursor mount effect (App.tsx
lines 24-60; unnamed file lines 14-29): the captured original cursor style,
the body cursor style after activation, the list of values written to the
body cursor style during activation, whether the indicator position was
initialized (gsap.set), the spin timeline created (none on the early-return
path), the event subscriptions made, the value the returned cleanup writes
to the body cursor style (none when the cleanup is the no-op of line 28 /
line 17), and whether any error was raised. -/
structure Activation where
  originalCursor : String
  bodyCursor : String
  activationWrites : List String
  positionInit : Bool
  spinTl : Option SpinTimeline
  listeners : List String
  cleanupWrite : Option String
  errorRaised : Bool
deriving DecidableEq, Repr

/-- The TargetCursor mount effect as a pure function. It captures the
original body cursor style, hides the native cursor when hideDefaultCursor
is set, and then: if the backing element cursorRef.current is unavailable it
returns early with the no-op cleanup (App.tsx line 28), performing no
animation setup; otherwise it initializes the indicator position, kills any
previous timeline and creates the spin timeline, registers the variant
listeners, and returns a cleanup that unsubscribes, kills the timeline and
writes the captured original back to the body cursor style. -/
def activate (v : SourceFile) (hideDefaultCursor : Bool) (spinDuration : ℚ)
    (cursorAvailable : Bool) (body : String) : Activation :=
  let originalCursor := body
  let afterHide := if hideDefaultCursor then ("none") else body
  let hideWrites := if hideDefaultCursor then [("none")] else []
  if cursorAvailable then
    { originalCursor := originalCursor
      bodyCursor := afterHide
      activationWrites := hideWrites
      positionInit := true
      spinTl := some (mainSpinTl spinDuration)
      listeners := listenersOf v
      cleanupWrite := some originalCursor
      errorRaised := false }
  else
    { originalCursor := originalCursor
      bodyCursor := afterHide
      activationWrites := hideWrites
      positionInit := false
      spinTl := none
      listeners := []
      cleanupWrite := none
      errorRaised := false }

/-- Body cursor style after the cleanup returned by the effect has run: the
cleanup write if the cleanup performs one, otherwise the value left by
activation. -/
def bodyCursorAfterTeardown (a : Activation) : String :=
  match a.cleanupWrite with
  | some w => w
  | none => a.bodyCursor

/-- All writes to the body cursor style over one complete
activate-then-teardown cycle, in order. -/
def lifecycleWrites (a : Activation) : List String :=
  a.activationWrites ++
    (match a.cleanupWrite with
      | some w => [w]
      | none => [])

/-- The mousedown handler of the full TargetCursor (App.tsx lines 40-44):
when both the dot and the cursor elements are available, tween the dot to
scale 0.8 and the cursor wrapper to scale 0.95, each over 0.15; otherwise do
nothing. The reduced TargetCursor of the unnamed file registers no mousedown
handler at all (its effect, lines 14-29, subscribes only to mousemove), so a
pointer press there issues no tweens. -/
def mouseDownHandler : SourceFile → Bool → Bool → List ScaleTween
  | .appTsx, dotAvailable, cursorAvailable =>
    if dotAvailable && cursorAvailable then
      [{ target := ("dot"), scale := 4 / 5, duration := 3 / 20 },
        { target := ("cursor"), scale := 19 / 20, duration := 3 / 20 }]
    else []
  | .unnamedPart0, _, _ => []

/-- The mouseup handler of the full TargetCursor (App.tsx lines 45-49):
when both elements are available, tween both back to scale 1 over 0.15. The
reduced TargetCursor registers no mouseup handler. -/
def mouseUpHandler : SourceFile → Bool → Bool → List ScaleTween
  | .appTsx, dotAvailable, cursorAvailable =>
    if dotAvailable && cursorAvailable then
      [{ target := ("dot"), scale := 1, duration := 3 / 20 },
        { target := ("cursor"), scale := 1, duration := 3 / 20 }]
    else []
  | .unnamedPart0, _, _ => []

/-- Indicator rotation at time t under an indefinitely repeating linear
rotation tween: each cycle of length duration adds rotationDelta with linear
interpolation within the cycle, so the rotation grows linearly with t. -/
def spinRotation (cfg : SpinTimeline) (base t : ℚ) : ℚ :=
  base + cfg.rotationDelta * (t / cfg.duration)

/-- Whether the timeline is still running at time t after its start: a
timeline with repeats of -1 (the gsap convention for infinite repetition)
never finishes on its own; a timeline with a nonnegative repeat count
finishes after duration times repeats plus one. -/
def timelineActive (cfg : SpinTimeline) (t : ℚ) : Bool :=
  if cfg.repeats < 0 then true
  else decide (t < cfg.duration * ((cfg.repeats : ℚ) + 1))

/-- State of the spin-timeline resource across the cursor controller
lifetime: the ids of timelines created and not yet killed, the timeline id
held by the spinTl ref (spinTl.current), and a fresh id counter. -/
structure TlState where
  alive : List Nat
  spinTlRef : Option Nat
  nextId : Nat
deriving DecidableEq, Repr

/-- The lifecycle events that touch the spin-timeline resource: a run of the
effect body with the backing element available (App.tsx lines 30-51), a run
of the effect body that returns early because the element is unavailable
(line 28), and the cleanup (lines 53-59). -/
inductive CursorOp
  | effectRun
  | effectRunNoCursor
  | cleanup
deriving DecidableEq, Repr

/-- One lifecycle step on the timeline state. effectRun first kills any
timeline held by the ref (App.tsx line 34) and then creates a fresh one and
stores it in the ref (line 35); effectRunNoCursor touches no timeline;
cleanup kills the timeline held by the ref, if any (line 57). -/
def stepTl (s : TlState) : CursorOp → TlState
  | .effectRun =>
    let alive1 :=
      match s.spinTlRef with
      | some i => s.alive.erase i
      | none => s.alive
    { alive := alive1 ++ [s.nextId], spinTlRef := some s.nextId,
      nextId := s.nextId + 1 }
  | .effectRunNoCursor => s
  | .cleanup =>
    match s.spinTlRef with
    | some i => { s with alive := s.alive.erase i }
    | none => s

/-- Before the controller first mounts, no spin timeline exists and the ref
is empty. -/
def initTl : TlState :=
  { alive := [], spinTlRef := none, nextId := 0 }

/-- The timeline state after a sequence of lifecycle events from the initial
state. -/
def runOps (ops : List CursorOp) : TlState :=
  ops.foldl stepTl initTl

/-- Strengthened invariant of the timeline state: either no timeline is
alive, or exactly the timeline held by the ref is alive. -/
def TlInv (s : TlState) : Prop :=
  s.alive = [] ∨ ∃ i, s.spinTlRef = some i ∧ s.alive = [i]

lemma tlInv_init : TlInv initTl :=
  Or.inl rfl

lemma tlInv_step (s : TlState) (op : CursorOp) (h : TlInv s) :
    TlInv (stepTl s op) := by
  cases op with
  | effectRun =>
    rcases h with h | ⟨i, href, halive⟩
    · rcases hr : s.spinTlRef with _ | i <;>
        simp [stepTl, hr, h, TlInv]
    · simp [stepTl, href, halive, TlInv]
  | effectRunNoCursor => exact h
  | cleanup =>
    rcases h with h | ⟨i, href, halive⟩
    · rcases hr : s.spinTlRef with _ | i <;>
        simp [stepTl, hr, h, TlInv]
    · simp [stepTl, href, halive, TlInv]

lemma tlInv_run (ops : List CursorOp) : TlInv (runOps ops) := by
  induction ops using List.reverseRecOn with
  | nil => exact tlInv_init
  | append_singleton l op ih =>
    have : runOps (l ++ [op]) = stepTl (runOps l) op := by
      simp [runOps, List.foldl_append]
    rw [this]
    exact tlInv_step _ _ ih

lemma tlInv_cleanup_empty (s : TlState) (h : TlInv s) :
    (stepTl s .cleanup).alive = [] := by
  rcases h with h | ⟨i, href, halive⟩
  · rcases hr : s.spinTlRef with _ | i <;> simp [stepTl, hr, h]
  · simp [stepTl, href, halive]

/-- C3: For every finite nonempty sequence of setScreen requests over the
closed enumeration, starting from any screen, the screen after the sequence
equals the last requested target; repeating a request is a no-op on the
observable state (idempotence), and each step is total, its only effect
being the new current-screen value. -/
theorem c3_last_request_wins_idempotent (s0 cur t : ScreenName)
    (l : List ScreenName) :
    runNav s0 (l ++ [t]) = t ∧
    navStep (navStep cur t) t = navStep cur t ∧
    runNav cur [t, t] = runNav cur [t] := by
  refine ⟨?_, rfl, rfl⟩
  simp [runNav, List.foldl_append, navStep, setScreen]

/-- C4: For every value of the current-screen variable, exactly one of the
four render conditions of PhoneMockup holds: the rendered output contains
exactly the view of the current screen and no other. -/
theorem c4_exactly_one_view (s : ScreenName) :
    renderedViews s = [s] ∧ (renderedViews s).length = 1 := by
  cases s <;> exact ⟨rfl, rfl⟩

/-- C5: Immediately after mount the current screen is home, and on every
remount the screen resets to home regardless of the screen value at the
previous teardown. -/
theorem c5_initial_home_resets_on_remount (prev : Option ScreenName) :
    initialScreen = home ∧ mountScreen prev = home := by
  exact ⟨rfl, rfl⟩

/-- C1 evaluated at the failing input: activating with hideDefaultCursor
true while the backing element is unavailable, starting from body cursor
style auto, leaves the body cursor style at none after activation, returns a
cleanup that writes nothing, and therefore leaves the body cursor style at
none after teardown instead of restoring the captured value auto. -/
theorem c1_hidden_cursor_leak_on_interrupted_activation :
    (activate SourceFile.appTsx true 2 false ("auto")).bodyCursor = ("none") ∧
    (activate SourceFile.appTsx true 2 false ("auto")).cleanupWrite = none ∧
    bodyCursorAfterTeardown (activate SourceFile.appTsx true 2 false ("auto"))
      = ("none") ∧
    ("none" : String) ≠ ("auto") := by
  refine ⟨rfl, rfl, rfl, by decide⟩

/-- C2 counterexample: in the App of the unnamed source file, the Invest
button is rendered while the current screen is shop, so a control triggers a
direct shop-to-invest transition; the controls available from shop are not
only the transition back to home. -/
theorem c2_counterexample_direct_shop_to_invest :
    invest ∈ navControls SourceFile.unnamedPart0 shop ∧
    navControls SourceFile.unnamedPart0 shop ≠ [home] := by
  decide

/-- C2 amended: the star topology holds exactly for the PhoneMockup of
App.tsx (home reaches shop, save and invest; each of the other screens
reaches only home), while the App of the unnamed source file renders all
four navigation buttons on every screen, so there every screen can
transition directly to every screen. -/
theorem c2_star_topology_main_mockup_only :
    navControls SourceFile.appTsx home = [shop, save, invest] ∧
    navControls SourceFile.appTsx shop = [home] ∧
    navControls SourceFile.appTsx save = [home] ∧
    navControls SourceFile.appTsx invest = [home] ∧
    ∀ s, navControls SourceFile.unnamedPart0 s = [home, shop, save, invest] := by
  refine ⟨rfl, rfl, rfl, rfl, fun s => ?_⟩
  cases s <;> rfl

/-- C6: when the backing element is unavailable at activation time, the
effect of either variant performs no animation setup: no position
initialization, no spin timeline, no event subscriptions, and it raises no
error. -/
theorem c6_silent_noop_when_element_unavailable (v : SourceFile)
    (hide : Bool) (d : ℚ) (body : String) :
    (activate v hide d false body).positionInit = false ∧
    (activate v hide d false body).spinTl = none ∧
    (activate v hide d false body).listeners = [] ∧
    (activate v hide d false body).errorRaised = false := by
  exact ⟨rfl, rfl, rfl, rfl⟩

/-- C7: when activation completes, the created spin timeline has repeat -1,
rotation advance 360, period spinDuration and linear timing; under its
semantics the rotation advances by exactly 360 over any window of length
spinDuration, and the timeline never finishes on its own. -/
theorem c7_spin_timeline_rotation (v : SourceFile) (hide : Bool)
    (d base t u : ℚ) (body : String) (hd : 0 < d) :
    (activate v hide d true body).spinTl = some (mainSpinTl d) ∧
    spinRotation (mainSpinTl d) base (t + d)
      = spinRotation (mainSpinTl d) base t + 360 ∧
    timelineActive (mainSpinTl d) u = true := by
  refine ⟨rfl, ?_, ?_⟩
  · have hne : d ≠ 0 := ne_of_gt hd
    simp only [spinRotation, mainSpinTl]
    field_simp
    ring
  · simp [timelineActive, mainSpinTl]

/-- Witness for C7 at concrete inputs: spinDuration 2 is positive, and the
conclusion holds for the full TargetCursor activated with the defaults,
observed at base rotation 0, window start 5 and probe time 100. -/
theorem c7_spin_timeline_rotation_witness :
    (0 : ℚ) < 2 ∧
    ((activate SourceFile.appTsx true 2 true ("auto")).spinTl
        = some (mainSpinTl 2) ∧
      spinRotation (mainSpinTl 2) 0 (5 + 2)
        = spinRotation (mainSpinTl 2) 0 5 + 360 ∧
      timelineActive (mainSpinTl 2) 100 = true) :=
  ⟨by decide,
    c7_spin_timeline_rotation SourceFile.appTsx true 2 0 5 100 ("auto")
      (by decide)⟩

/-- C8 counterexample: the reduced TargetCursor of the unnamed source file
registers no press or release handlers, so a pointer press while it is
active (both elements available) issues no scale tweens at all — in
particular no tween scaling the indicator to 0.95. -/
theorem c8_counterexample_reduced_variant_no_press_feedback :
    mouseDownHandler SourceFile.unnamedPart0 true true = [] ∧
    mouseUpHandler SourceFile.unnamedPart0 true true = [] ∧
    ¬ (ScaleTween.mk ("cursor") (19 / 20) (3 / 20)
        ∈ mouseDownHandler SourceFile.unnamedPart0 true true) := by
  refine ⟨rfl, rfl, by decide⟩

/-- C8 amended: in the full TargetCursor of App.tsx, every pointer press
with both elements available tweens the inner dot to scale 0.8 and the
indicator to scale 0.95 over 0.15 time-units, and every release tweens both
back to scale 1 over 0.15; the reduced TargetCursor of the unnamed source
file registers no press or release handlers, so presses and releases there
issue no scale tweens. -/
theorem c8_press_release_feedback_main_only (dotA cursorA : Bool) :
    mouseDownHandler SourceFile.appTsx true true
      = [ScaleTween.mk ("dot") (4 / 5) (3 / 20),
          ScaleTween.mk ("cursor") (19 / 20) (3 / 20)] ∧
    mouseUpHandler SourceFile.appTsx true true
      = [ScaleTween.mk ("dot") 1 (3 / 20),
          ScaleTween.mk ("cursor") 1 (3 / 20)] ∧
    mouseDownHandler SourceFile.unnamedPart0 dotA cursorA = [] ∧
    mouseUpHandler SourceFile.unnamedPart0 dotA cursorA = [] := by
  exact ⟨rfl, rfl, rfl, rfl⟩

/-- C9: across every sequence of lifecycle events, at most one spin timeline
is alive at any point (the effect kills the previous timeline before
creating a new one), and running the cleanup at the end always leaves no
alive timeline. -/
theorem c9_at_most_one_spin_timeline (ops : List CursorOp) :
    (runOps ops).alive.length ≤ 1 ∧
    (runOps (ops ++ [CursorOp.cleanup])).alive = [] := by
  constructor
  · rcases tlInv_run ops with h | ⟨i, _, halive⟩
    · simp [h]
    · simp [halive]
  · have : runOps (ops ++ [CursorOp.cleanup])
        = stepTl (runOps ops) .cleanup := by
      simp [runOps, List.foldl_append]
    rw [this]
    exact tlInv_cleanup_empty _ (tlInv_run ops)

/-- C10: when activated with hideDefaultCursor false, the body cursor style
is never set to the hidden value: activation leaves it at its original
value, the only write over the whole lifecycle is the teardown write of the
captured original (no write at all on the interrupted path), and the
observable value is unchanged after activation and after teardown. -/
theorem c10_cursor_untouched_when_hide_disabled (v : SourceFile) (d : ℚ)
    (avail : Bool) (body : String) :
    (activate v false d avail body).bodyCursor = body ∧
    bodyCursorAfterTeardown (activate v false d avail body) = body ∧
    lifecycleWrites (activate v false d avail body)
      = (if avail then [body] else []) := by
  cases avail <;> exact ⟨rfl, rfl, rfl⟩

end TeenFin
